import Mathlib

/-!
Verification of the gig.bot orchestration core (core/types.py, core/scraper_base.py,
core/storage.py, core/notifications.py, core/proxies.py, core/http_utils.py,
core/robots.py) against its specification.

The Python modules are shallowly embedded: the SQLite tables become explicit
lists of rows, the system clock and random draws become explicit parameters,
and a job body's behaviour (return value or raised exception) becomes an
explicit outcome value.
-/

namespace GigBot

/-! ## core/types.py -/

/-- Status codes for scraper operations (core/types.py, ScraperStatus). -/
inductive ScraperStatus
  | success
  | failed
  | skipped_robots
  | circuit_open
deriving DecidableEq, Repr

/-- The string value of each ScraperStatus member (it is a str-valued Enum). -/
def ScraperStatus.value : ScraperStatus → String
  | .success => "success"
  | .failed => "failed"
  | .skipped_robots => "skipped_robots"
  | .circuit_open => "circuit_open"

/-- A Python value as seen by the lifecycle wrapper: the job body may return
None, a ScraperStatus member, a string, or any other object (indexed opaquely). -/
inductive PyVal
  | none
  | status (s : ScraperStatus)
  | str (s : String)
  | obj (n : Nat)
deriving DecidableEq, Repr

/-- The skip test of scraper_base.py lines 51-53:
result == ScraperStatus.SKIPPED_ROBOTS or (isinstance(result, str) and
result == ScraperStatus.SKIPPED_ROBOTS.value).  Because ScraperStatus is a
str-valued Enum, the first comparison is true exactly for the enum member
SKIPPED_ROBOTS and for the equal string, which the second disjunct repeats. -/
def isSkipResult : PyVal → Bool
  | .status .skipped_robots => true
  | .str s => s == ScraperStatus.skipped_robots.value
  | _ => false

/-! ## core/storage.py: health and performance tables -/

/-- One row of the scraper_health table (scraper_name is the PRIMARY KEY). -/
structure HealthRow where
  scraper_name : String
  last_run : String
deriving DecidableEq, Repr

/-- One row of the scraper_performance table (PRIMARY KEY (scraper_name, timestamp)).
Duration (a REAL number of seconds) is abstracted as a Nat; no claim depends on
its arithmetic. -/
structure PerfRow where
  scraper_name : String
  timestamp : String
  duration : Nat
  status : String
  error_message : Option String
deriving DecidableEq, Repr

/-- update_scraper_health (storage.py lines 60-82): INSERT OR REPLACE into
scraper_health keyed on scraper_name, with the current UTC ISO timestamp `ts`.
SQLite OR REPLACE deletes any conflicting row and inserts the new one. -/
def update_scraper_health (name ts : String) (t : List HealthRow) : List HealthRow :=
  (t.filter fun r => !(r.scraper_name == name)) ++ [⟨name, ts⟩]

/-- log_scraper_performance (storage.py lines 84-111): INSERT into
scraper_performance; a duplicate (scraper_name, timestamp) key raises an
IntegrityError which the function catches and logs, leaving the table as is. -/
def log_scraper_performance (name ts : String) (dur : Nat) (status : String)
    (err : Option String) (t : List PerfRow) : List PerfRow :=
  if t.any fun r => r.scraper_name == name && r.timestamp == ts then t
  else t ++ [⟨name, ts, dur, status, err⟩]

/-- get_scraper_health (storage.py lines 113-125): SELECT last_run for a name. -/
def get_scraper_health (name : String) (t : List HealthRow) : Option String :=
  match t.find? (fun r => r.scraper_name == name) with
  | some r => some r.last_run
  | Option.none => Option.none

/-! ## core/scraper_base.py: the lifecycle wrapper -/

/-- What the wrapped job body does on one invocation: return a value, or raise
an exception e (with message str(e)).  Job-body errors are Exception instances,
which the wrapper's except clause catches. -/
inductive BodyOutcome
  | ok (v : PyVal)
  | raises (msg : String)
deriving DecidableEq, Repr

/-- The database state touched by the lifecycle wrapper. -/
structure LifecycleState where
  scraper_health : List HealthRow
  scraper_performance : List PerfRow
deriving DecidableEq, Repr

/-- Result of one run of the wrapped callable: the Python return value, the
database state afterwards, whether an exception escaped to the caller, and the
final lifecycle status. -/
structure LifecycleResult where
  ret : PyVal
  st : LifecycleState
  escaped : Bool
  final_status : ScraperStatus
deriving DecidableEq, Repr

/-- The wrapper built by scraper_lifecycle(name) (scraper_base.py lines 37-77).
`healthTs` is the UTC timestamp taken inside update_scraper_health and `perfTs`
the one taken inside log_scraper_performance; `dur` is the measured duration.
On a body exception the status becomes FAILED with error_message = str(e) and
the exception is not re-raised; the finally block always writes one
performance record. -/
def scraper_lifecycle (name : String) (body : BodyOutcome)
    (healthTs perfTs : String) (dur : Nat) (st : LifecycleState) : LifecycleResult :=
  match body with
  | .raises msg =>
      let perf := log_scraper_performance name perfTs dur ScraperStatus.failed.value
        (some msg) st.scraper_performance
      { ret := .none, st := { st with scraper_performance := perf },
        escaped := false, final_status := .failed }
  | .ok v =>
      if isSkipResult v then
        let perf := log_scraper_performance name perfTs dur ScraperStatus.skipped_robots.value
          Option.none st.scraper_performance
        { ret := v, st := { st with scraper_performance := perf },
          escaped := false, final_status := .skipped_robots }
      else
        let health := update_scraper_health name healthTs st.scraper_health
        let perf := log_scraper_performance name perfTs dur ScraperStatus.success.value
          Option.none st.scraper_performance
        { ret := v, st := { scraper_health := health, scraper_performance := perf },
          escaped := false, final_status := .success }

/-! ## Helper lemmas -/

/-- After INSERT OR REPLACE, the health table holds the new timestamp for the name. -/
theorem get_scraper_health_update (name ts : String) (t : List HealthRow) :
    get_scraper_health name (update_scraper_health name ts t) = some ts := by
  unfold get_scraper_health update_scraper_health
  rw [List.find?_append]
  have h : List.find? (fun r => r.scraper_name == name)
      (t.filter fun r => !(r.scraper_name == name)) = Option.none := by
    rw [List.find?_eq_none]
    intro x hx
    have := List.of_mem_filter hx
    simpa using this
  rw [h]
  simp [List.find?]

/-! ## Claims about the lifecycle wrapper -/

/-- C1: for every job body and every exception it raises, the lifecycle wrapper
catches the exception (it never escapes the wrapped call) and writes exactly one
performance record with status "failed" and a non-null error message for that
invocation.  The freshness hypothesis says the (name, timestamp) performance key
of this invocation is new, which holds for any clock of nonzero resolution. -/
theorem lifecycle_failure_isolated (name msg healthTs perfTs : String) (dur : Nat)
    (st : LifecycleState)
    (hfresh : (st.scraper_performance.any fun r =>
        r.scraper_name == name && r.timestamp == perfTs) = false) :
    let r := scraper_lifecycle name (.raises msg) healthTs perfTs dur st
    r.escaped = false ∧
    r.st.scraper_performance = st.scraper_performance ++
      [{ scraper_name := name, timestamp := perfTs, duration := dur,
         status := "failed", error_message := some msg }] ∧
    (some msg : Option String) ≠ Option.none := by
  refine ⟨rfl, ?_, by simp⟩
  simp only [scraper_lifecycle, log_scraper_performance, hfresh]
  simp [ScraperStatus.value]

/-- Concrete instance of lifecycle_failure_isolated: a body raising
ValueError("boom") against an empty database. -/
theorem lifecycle_failure_isolated_witness :
    let st : LifecycleState := { scraper_health := [], scraper_performance := [] }
    let r := scraper_lifecycle "jiji" (.raises "boom") "t1" "t2" 5 st
    r.escaped = false ∧
    r.st.scraper_performance =
      [{ scraper_name := "jiji", timestamp := "t2", duration := 5,
         status := "failed", error_message := some "boom" }] ∧
    (some "boom" : Option String) ≠ Option.none :=
  lifecycle_failure_isolated "jiji" "boom" "t1" "t2" 5
    { scraper_health := [], scraper_performance := [] } (by decide)

/-- C6: frame effect of the wrapper on the health table.  A body returning the
skipped-robots sentinel ends with status SKIPPED_ROBOTS and leaves the health
table unchanged; a raising body also leaves it unchanged; only a body returning
a non-skip value has the job's HealthRecord upserted (afterwards the table
holds the new timestamp for the job). -/
theorem lifecycle_health_frame (name msg healthTs perfTs : String) (dur : Nat)
    (st : LifecycleState) (vs vn : PyVal)
    (hs : isSkipResult vs = true) (hn : isSkipResult vn = false) :
    (scraper_lifecycle name (.ok vs) healthTs perfTs dur st).final_status =
      ScraperStatus.skipped_robots ∧
    (scraper_lifecycle name (.ok vs) healthTs perfTs dur st).st.scraper_health =
      st.scraper_health ∧
    (scraper_lifecycle name (.raises msg) healthTs perfTs dur st).st.scraper_health =
      st.scraper_health ∧
    (scraper_lifecycle name (.ok vn) healthTs perfTs dur st).st.scraper_health =
      update_scraper_health name healthTs st.scraper_health ∧
    get_scraper_health name
      (scraper_lifecycle name (.ok vn) healthTs perfTs dur st).st.scraper_health =
      some healthTs := by
  refine ⟨?_, ?_, rfl, ?_, ?_⟩
  · simp [scraper_lifecycle, hs]
  · simp [scraper_lifecycle, hs]
  · simp [scraper_lifecycle, hn]
  · simp [scraper_lifecycle, hn, get_scraper_health_update]

/-- Concrete instance of lifecycle_health_frame: the sentinel as the enum member
versus a normal string result, against an empty database. -/
theorem lifecycle_health_frame_witness :
    let st : LifecycleState := { scraper_health := [], scraper_performance := [] }
    (scraper_lifecycle "jiji" (.ok (.status .skipped_robots)) "h" "p" 1 st).st.scraper_health
      = [] ∧
    (scraper_lifecycle "jiji" (.raises "x") "h" "p" 1 st).st.scraper_health = [] ∧
    get_scraper_health "jiji"
      (scraper_lifecycle "jiji" (.ok (.str "done")) "h" "p" 1 st).st.scraper_health
      = some "h" := by
  have h := lifecycle_health_frame "jiji" "x" "h" "p" 1
    { scraper_health := [], scraper_performance := [] }
    (.status .skipped_robots) (.str "done") (by decide) (by decide)
  exact ⟨h.2.1, h.2.2.1, h.2.2.2.2⟩

/-- C10: the wrapped callable returns None when the body raises (the except
path swallows the exception and falls through with no return), and forwards the
body's result otherwise; hence a failed run is indistinguishable from a body
that legitimately returned None. -/
theorem lifecycle_return_swallowed (name msg healthTs perfTs : String) (dur : Nat)
    (st : LifecycleState) (v : PyVal) :
    (scraper_lifecycle name (.raises msg) healthTs perfTs dur st).ret = PyVal.none ∧
    (scraper_lifecycle name (.ok v) healthTs perfTs dur st).ret = v ∧
    (scraper_lifecycle name (.raises msg) healthTs perfTs dur st).ret =
      (scraper_lifecycle name (.ok PyVal.none) healthTs perfTs dur st).ret := by
  refine ⟨rfl, ?_, rfl⟩
  unfold scraper_lifecycle
  by_cases h : isSkipResult v = true
  · simp [h]
  · simp [Bool.not_eq_true] at h
    simp [h]

/-! ## core/storage.py: the gigs table and save_gig -/

/-- One row of the gigs table (storage.py init_db), without the autoincrement id.
The table carries UNIQUE(source, link). -/
structure GigRow where
  source : String
  title : String
  link : String
  snippet : String
  price : Option String
  full_description : Option String
  timestamp : Option String
  contact_info : Option String
  category : Option String
deriving DecidableEq, Repr

/-- Whether the gigs table already holds a row with this (source, link) key:
the condition under which the INSERT raises sqlite3.IntegrityError. -/
def hasGigKey (source link : String) (gigs : List GigRow) : Bool :=
  gigs.any fun r => r.source == source && r.link == link

/-- Number of stored rows with the given (source, link) key. -/
def countGig (source link : String) (gigs : List GigRow) : Nat :=
  (gigs.filter fun r => r.source == source && r.link == link).length

/-- _sync_save_gig_db_ops (storage.py lines 159-193): INSERT the row; on a
UNIQUE(source, link) conflict the IntegrityError is caught, a warning logged,
and False returned; on success True is returned.  Result: (db_success, table). -/
def _sync_save_gig_db_ops (source title link snippet : String)
    (price full_description timestamp contact_info category : Option String)
    (gigs : List GigRow) : Bool × List GigRow :=
  if hasGigKey source link gigs then
    (false, gigs)
  else
    (true, gigs ++ [⟨source, title, link, snippet, price, full_description,
                     timestamp, contact_info, category⟩])

/-- The store state: the gigs table plus the stream of notification dispatches
(arguments of each send_notification call made by save_gig). -/
structure StoreState where
  gigs : List GigRow
  notifications : List (String × String × String × String)
deriving DecidableEq, Repr

/-- save_gig (storage.py lines 195-227).  A missing timestamp is replaced by the
current UTC ISO-8601 time `nowIso`; the row is inserted via
_sync_save_gig_db_ops; only when that reports success is send_notification
dispatched with (source, title, link, snippet). -/
def save_gig (source title link snippet : String)
    (price full_description timestamp contact_info category : Option String)
    (nowIso : String) (st : StoreState) : StoreState :=
  let ts : Option String :=
    match timestamp with
    | Option.none => some nowIso
    | some t => some t
  let res := _sync_save_gig_db_ops source title link snippet price full_description
    ts contact_info category st.gigs
  if res.1 then
    { gigs := res.2, notifications := st.notifications ++ [(source, title, link, snippet)] }
  else
    { gigs := res.2, notifications := st.notifications }

/-- A key absent from the table means zero matching rows and vice versa. -/
theorem hasGigKey_false_iff (source link : String) (gigs : List GigRow) :
    hasGigKey source link gigs = false ↔ countGig source link gigs = 0 := by
  constructor
  · intro h
    have hall : ∀ r ∈ gigs, ¬(r.source == source && r.link == link) = true := by
      intro r hr hcon
      have : hasGigKey source link gigs = true := by
        simp only [hasGigKey, List.any_eq_true]
        exact ⟨r, hr, hcon⟩
      rw [h] at this
      exact Bool.false_ne_true this
    simp only [countGig, List.length_eq_zero, List.filter_eq_nil_iff]
    exact hall
  · intro h
    simp only [countGig, List.length_eq_zero, List.filter_eq_nil_iff] at h
    simp only [hasGigKey]
    rw [Bool.eq_false_iff]
    intro hcon
    rw [List.any_eq_true] at hcon
    obtain ⟨r, hr, hp⟩ := hcon
    exact h r hr hp

/-- C2: calling save_gig twice with the same (source, link) — the other fields
and the clock may even differ between the calls — stores exactly one row with
that key and dispatches exactly one notification, carrying the first call's
(source, title, link, snippet); the second insert hits the UNIQUE constraint
and is ignored without notifying. -/
theorem save_gig_dedup_single_notification
    (source title title2 link snippet snippet2 : String)
    (p p2 fd fd2 ts ts2 ci ci2 cat cat2 : Option String)
    (now now2 : String) (st : StoreState)
    (hfresh : countGig source link st.gigs = 0) :
    let s1 := save_gig source title link snippet p fd ts ci cat now st
    let s2 := save_gig source title2 link snippet2 p2 fd2 ts2 ci2 cat2 now2 s1
    countGig source link s2.gigs = 1 ∧
    s2.notifications = st.notifications ++ [(source, title, link, snippet)] := by
  have hkey : hasGigKey source link st.gigs = false :=
    (hasGigKey_false_iff source link st.gigs).mpr hfresh
  have h0 : List.filter (fun r => r.source == source && r.link == link) st.gigs = [] := by
    simpa [countGig, List.length_eq_zero] using hfresh
  simp only [save_gig, _sync_save_gig_db_ops, hkey, Bool.false_eq_true, reduceIte]
  have hkey2 : ∀ row : GigRow, row.source = source → row.link = link →
      hasGigKey source link (st.gigs ++ [row]) = true := by
    intro row h1 h2
    simp [hasGigKey, List.any_append, h1, h2]
  rw [hkey2 _ rfl rfl]
  simp only [reduceIte]
  refine ⟨?_, rfl⟩
  simp [countGig, List.filter_append, h0, List.filter]

/-- Concrete instance of save_gig_dedup_single_notification: the spec scenario
save("Reddit", "Hiring dev", "http://x/1", "snip") called twice on an empty store. -/
theorem save_gig_dedup_single_notification_witness :
    let st : StoreState := { gigs := [], notifications := [] }
    let s1 := save_gig "Reddit" "Hiring dev" "http://x/1" "snip" Option.none Option.none
      Option.none Option.none Option.none "2025-01-01T00:00:00+00:00" st
    let s2 := save_gig "Reddit" "Hiring dev" "http://x/1" "snip" Option.none Option.none
      Option.none Option.none Option.none "2025-01-01T00:05:00+00:00" s1
    countGig "Reddit" "http://x/1" s2.gigs = 1 ∧
    s2.notifications = [("Reddit", "Hiring dev", "http://x/1", "snip")] :=
  save_gig_dedup_single_notification "Reddit" "Hiring dev" "Hiring dev" "http://x/1"
    "snip" "snip" Option.none Option.none Option.none Option.none Option.none Option.none
    Option.none Option.none Option.none Option.none
    "2025-01-01T00:00:00+00:00" "2025-01-01T00:05:00+00:00"
    { gigs := [], notifications := [] } (by decide)

/-- C9: save_gig called with timestamp = None fills the row's timestamp with the
current UTC ISO-8601 time `nowIso` before inserting, so no row it stores ever
carries a null timestamp. -/
theorem save_gig_timestamp_filled (source title link snippet : String)
    (p fd ci cat : Option String) (nowIso : String) (st : StoreState)
    (hfresh : hasGigKey source link st.gigs = false) :
    let s1 := save_gig source title link snippet p fd Option.none ci cat nowIso st
    s1.gigs = st.gigs ++
      [{ source := source, title := title, link := link, snippet := snippet,
         price := p, full_description := fd, timestamp := some nowIso,
         contact_info := ci, category := cat }] ∧
    (∀ r ∈ s1.gigs, r ∈ st.gigs ∨ r.timestamp = some nowIso) := by
  refine ⟨?_, ?_⟩
  · simp [save_gig, _sync_save_gig_db_ops, hfresh]
  · intro r hr
    simp only [save_gig, _sync_save_gig_db_ops, hfresh, Bool.false_eq_true, reduceIte,
      List.mem_append, List.mem_singleton] at hr
    rcases hr with h | h
    · exact Or.inl h
    · subst h
      exact Or.inr rfl

/-- Concrete instance of save_gig_timestamp_filled: a gig saved with no
timestamp against an empty store carries the clock value. -/
theorem save_gig_timestamp_filled_witness :
    let st : StoreState := { gigs := [], notifications := [] }
    let s1 := save_gig "jiji" "title" "http://x/2" "s" Option.none Option.none
      Option.none Option.none Option.none "2025-01-01T00:00:00+00:00" st
    s1.gigs = [⟨"jiji", "title", "http://x/2", "s", Option.none, Option.none,
      some "2025-01-01T00:00:00+00:00", Option.none, Option.none⟩] :=
  (save_gig_timestamp_filled "jiji" "title" "http://x/2" "s" Option.none Option.none
    Option.none Option.none "2025-01-01T00:00:00+00:00"
    { gigs := [], notifications := [] } (by decide)).1

/-! ## core/notifications.py -/

/-- Python truthiness of an optional string (None and the empty string are falsy). -/
def truthyStr : Option String → Bool
  | Option.none => false
  | some s => !(s == "")

/-- Python truthiness of an optional number (None and 0 are falsy). -/
def truthyNat : Option Nat → Bool
  | Option.none => false
  | some n => !(n == 0)

/-- The notification_settings section of the configuration, as read by
core/notifications.py. -/
structure NotificationSettings where
  enable_email_notifications : Bool
  smtp_server : Option String
  smtp_port : Option Nat
  smtp_username : Option String
  smtp_password : Option String
  email_recipients : List String
  enable_telegram_notifications : Bool
  telegram_bot_token : Option String
  telegram_chat_id : Option String
deriving DecidableEq, Repr

/-- The completeness check of send_email_notification line 26:
all([smtp_server, smtp_port, smtp_user, smtp_password, recipient_emails]). -/
def emailSettingsComplete (c : NotificationSettings) : Bool :=
  truthyStr c.smtp_server && truthyNat c.smtp_port && truthyStr c.smtp_username &&
    truthyStr c.smtp_password && !(c.email_recipients == [])

/-- The completeness check of send_telegram_notification line 78:
all([bot_token, chat_id]). -/
def telegramSettingsComplete (c : NotificationSettings) : Bool :=
  truthyStr c.telegram_bot_token && truthyStr c.telegram_chat_id

/-- How the SMTP transport behaves if a send is attempted: success, or a
smtplib.SMTPException / OSError, the classes the except clause catches. -/
inductive EmailTransport
  | ok
  | smtpError (msg : String)
deriving DecidableEq, Repr

/-- How the Telegram transport behaves if a send is attempted: success, or any
Exception, which the except clause catches. -/
inductive TelegramTransport
  | ok
  | sendError (msg : String)
deriving DecidableEq, Repr

/-- The observable effect of one channel send: no attempt (disabled or
incomplete settings), a delivered message, or a failure caught and logged. -/
inductive ChannelEffect
  | not_attempted
  | sent
  | error_logged (msg : String)
deriving DecidableEq, Repr

/-- send_email_notification (notifications.py lines 11-58): early return when
disabled or when the SMTP settings are incomplete; otherwise the send is
attempted and a transport failure is caught and logged, never re-raised. -/
def send_email_notification (c : NotificationSettings) (tr : EmailTransport) :
    ChannelEffect :=
  if !c.enable_email_notifications then .not_attempted
  else if !(emailSettingsComplete c) then .not_attempted
  else match tr with
    | .ok => .sent
    | .smtpError m => .error_logged m

/-- send_telegram_notification (notifications.py lines 60-99): early return when
disabled or when bot token or chat id is missing; otherwise the send is
attempted and any failure is caught and logged, never re-raised. -/
def send_telegram_notification (c : NotificationSettings) (tr : TelegramTransport) :
    ChannelEffect :=
  if !c.enable_telegram_notifications then .not_attempted
  else if !(telegramSettingsComplete c) then .not_attempted
  else match tr with
    | .ok => .sent
    | .sendError m => .error_logged m

/-- Result of one send_notification call: each channel's effect, how many tasks
were created, and whether any exception propagated to the caller. -/
structure DispatchResult where
  email : ChannelEffect
  telegram : ChannelEffect
  tasks_created : Nat
  escaped : Bool
deriving DecidableEq, Repr

/-- send_notification (notifications.py lines 101-125): creates one task per
enabled channel and gathers them; each task runs its channel function, whose
internal failures are caught inside it, so the gather never raises. -/
def send_notification (c : NotificationSettings) (etr : EmailTransport)
    (ttr : TelegramTransport) : DispatchResult :=
  let email_effect :=
    if c.enable_email_notifications then send_email_notification c etr
    else .not_attempted
  let telegram_effect :=
    if c.enable_telegram_notifications then send_telegram_notification c ttr
    else .not_attempted
  { email := email_effect, telegram := telegram_effect,
    tasks_created := (if c.enable_email_notifications then 1 else 0) +
      (if c.enable_telegram_notifications then 1 else 0),
    escaped := false }

/-- C7: for every configuration and every behaviour of the two transports,
send_notification never lets an exception escape to the caller; an enabled,
fully configured channel's transport failure — email or telegram — is recorded
as a logged error on that channel; each channel's effect does not depend on the
sibling transport's behaviour (a failure never cancels the sibling dispatch);
and with both channels disabled the call is a no-op (no task created, neither
channel attempted). -/
theorem send_notification_isolated (c : NotificationSettings) (m m' : String)
    (etr : EmailTransport) (ttr : TelegramTransport) :
    (send_notification c etr ttr).escaped = false ∧
    (c.enable_email_notifications = true → emailSettingsComplete c = true →
      (send_notification c (.smtpError m) ttr).email = .error_logged m) ∧
    (c.enable_telegram_notifications = true → telegramSettingsComplete c = true →
      (send_notification c etr (.sendError m')).telegram = .error_logged m') ∧
    (send_notification c (.smtpError m) (.sendError m')).telegram =
      (send_notification c .ok (.sendError m')).telegram ∧
    (send_notification c (.smtpError m) (.sendError m')).email =
      (send_notification c (.smtpError m) .ok).email ∧
    (c.enable_email_notifications = false → c.enable_telegram_notifications = false →
      send_notification c etr ttr =
        { email := .not_attempted, telegram := .not_attempted,
          tasks_created := 0, escaped := false }) := by
  refine ⟨rfl, ?_, ?_, rfl, rfl, ?_⟩
  · intro h1 h2
    simp [send_notification, send_email_notification, h1, h2]
  · intro h1 h2
    simp [send_notification, send_telegram_notification, h1, h2]
  · intro h1 h2
    simp [send_notification, h1, h2]

/-- Concrete instances of send_notification_isolated: with both channels
enabled and fully configured, each transport failure is caught and logged on
its own channel and leaves the sibling's effect unchanged; with both channels
disabled, the call is a no-op that creates no task. -/
theorem send_notification_isolated_witness :
    let c1 : NotificationSettings :=
      ⟨true, some "smtp.x.com", some 465, some "u", some "pw", ["a@x.com"],
        true, some "tok", some "chat"⟩
    let c0 : NotificationSettings :=
      ⟨false, Option.none, Option.none, Option.none, Option.none, [],
        false, Option.none, Option.none⟩
    (send_notification c1 (.smtpError "down") (.sendError "api")).escaped = false ∧
    (send_notification c1 (.smtpError "down") (.sendError "api")).email =
      .error_logged "down" ∧
    (send_notification c1 (.smtpError "down") (.sendError "api")).telegram =
      .error_logged "api" ∧
    (send_notification c1 (.smtpError "down") (.sendError "api")).telegram =
      (send_notification c1 .ok (.sendError "api")).telegram ∧
    send_notification c0 .ok .ok =
      { email := .not_attempted, telegram := .not_attempted,
        tasks_created := 0, escaped := false } := by
  have h1 := send_notification_isolated
    ⟨true, some "smtp.x.com", some 465, some "u", some "pw", ["a@x.com"],
      true, some "tok", some "chat"⟩
    "down" "api" (.smtpError "down") (.sendError "api")
  have h0 := send_notification_isolated
    ⟨false, Option.none, Option.none, Option.none, Option.none, [],
      false, Option.none, Option.none⟩
    "down" "api" EmailTransport.ok TelegramTransport.ok
  exact ⟨h1.1, h1.2.1 (by decide) (by decide), h1.2.2.1 (by decide) (by decide),
    h1.2.2.2.1, h0.2.2.2.2.2 (by decide) (by decide)⟩

/-! ## core/proxies.py -/

/-- The configuration keys read by core/proxies.py: the use_proxies flag, the
proxy_list pool and the user_agents pool (config.get defaults to []). -/
structure IdentityConfig where
  use_proxies : Bool
  proxy_list : List String
  user_agents : List String
deriving DecidableEq, Repr

/-- The hard-coded fallback user agent of proxies.py line 40. -/
def default_user_agent : String :=
  "Mozilla/5.0 (Windows NT 10.0; Win64; x64) AppleWebKit/537.36 (KHTML, like Gecko) Chrome/58.0.3029.110 Safari/537.36"

/-- random.choice(seq): returns seq[i] for an index i drawn uniformly from
[0, len seq); the draw is made explicit as the parameter. -/
def random_choice (l : List String) (i : Nat) : String :=
  l.getD (i % l.length) ""

/-- get_proxy (proxies.py lines 5-26): None when proxying is disabled or the
pool is empty; otherwise one random pool entry p as the mapping
(http, https) = (p, p). -/
def get_proxy (c : IdentityConfig) (i : Nat) : Option (String × String) :=
  if !c.use_proxies then Option.none
  else if c.proxy_list == [] then Option.none
  else
    let p := random_choice c.proxy_list i
    some (p, p)

/-- get_random_user_agent (proxies.py lines 28-41): the fallback string when the
configured pool is empty, otherwise one random pool entry. -/
def get_random_user_agent (c : IdentityConfig) (i : Nat) : String :=
  if c.user_agents == [] then default_user_agent
  else random_choice c.user_agents i

/-- C8: get_proxy returns null when proxying is disabled or the pool is empty,
and otherwise returns the pool entry selected by the uniform index draw (every
index below the pool length yields the corresponding entry, for both protocol
keys); get_random_user_agent returns the entry selected by the uniform draw, or
the hard-coded fallback when the pool is empty. -/
theorem identity_rotation_spec (c : IdentityConfig) (i : Nat) :
    (c.use_proxies = false → get_proxy c i = Option.none) ∧
    (c.proxy_list = [] → get_proxy c i = Option.none) ∧
    (c.use_proxies = true → ∀ k, (hk : k < c.proxy_list.length) →
      get_proxy c k = some (c.proxy_list.get ⟨k, hk⟩, c.proxy_list.get ⟨k, hk⟩)) ∧
    (c.user_agents = [] → get_random_user_agent c i = default_user_agent) ∧
    (∀ k, (hk : k < c.user_agents.length) →
      get_random_user_agent c k = c.user_agents.get ⟨k, hk⟩) := by
  refine ⟨?_, ?_, ?_, ?_, ?_⟩
  · intro h
    simp [get_proxy, h]
  · intro h
    simp [get_proxy, h]
  · intro h k hk
    have hne : c.proxy_list ≠ [] := List.ne_nil_of_length_pos (Nat.lt_of_le_of_lt (Nat.zero_le k) hk)
    simp only [get_proxy, h, Bool.not_true, Bool.false_eq_true, reduceIte, beq_iff_eq, hne]
    simp [random_choice, Nat.mod_eq_of_lt hk, List.getD_eq_getElem?_getD,
      List.getElem?_eq_getElem hk, List.get_eq_getElem]
  · intro h
    simp [get_random_user_agent, h]
  · intro k hk
    have hne : c.user_agents ≠ [] := List.ne_nil_of_length_pos (Nat.lt_of_le_of_lt (Nat.zero_le k) hk)
    simp only [get_random_user_agent, beq_iff_eq, hne, reduceIte]
    simp [random_choice, Nat.mod_eq_of_lt hk, List.getD_eq_getElem?_getD,
      List.getElem?_eq_getElem hk, List.get_eq_getElem]

/-- Concrete instance of identity_rotation_spec: a two-entry proxy pool with the
draw landing on the second entry, a disabled configuration, and an empty
user-agent pool falling back to the default string. -/
theorem identity_rotation_spec_witness :
    get_proxy ⟨true, ["http://p1:80", "http://p2:80"], []⟩ 1 =
      some ("http://p2:80", "http://p2:80") ∧
    get_proxy ⟨false, ["http://p1:80"], []⟩ 0 = Option.none ∧
    get_random_user_agent ⟨true, ["http://p1:80", "http://p2:80"], []⟩ 7 =
      default_user_agent ∧
    get_random_user_agent ⟨true, [], ["ua1", "ua2"]⟩ 0 = "ua1" := by
  refine ⟨?_, ?_, ?_, ?_⟩
  · have h := (identity_rotation_spec ⟨true, ["http://p1:80", "http://p2:80"], []⟩ 1).2.2.1
      rfl 1 (by decide)
    simpa using h
  · exact (identity_rotation_spec ⟨false, ["http://p1:80"], []⟩ 0).1 rfl
  · exact (identity_rotation_spec ⟨true, ["http://p1:80", "http://p2:80"], []⟩ 7).2.2.2.1 rfl
  · have h := (identity_rotation_spec ⟨true, [], ["ua1", "ua2"]⟩ 0).2.2.2.2 0 (by decide)
    simpa using h

/-! ## core/http_utils.py: the resilient fetcher -/

/-- What one network attempt yields: a 2xx response, a non-2xx response of the
given status code (raise_for_status turns it into an HTTPError), a timeout, a
connection failure, or another request error. -/
inductive AttemptOutcome
  | success
  | http_status (code : Nat)
  | timeout
  | conn_failure
  | other_request_error
deriving DecidableEq, Repr

/-- The requests exception raised by one attempt.  In the requests library,
HTTPError, Timeout and ConnectionError are all subclasses of RequestException. -/
inductive RequestExc
  | http_error (code : Nat)
  | timeout
  | connection_error
  | request_exception
deriving DecidableEq, Repr

/-- isinstance(e, requests.exceptions.Timeout). -/
def isTimeout : RequestExc → Bool
  | .timeout => true
  | _ => false

/-- isinstance(e, requests.exceptions.ConnectionError). -/
def isConnectionError : RequestExc → Bool
  | .connection_error => true
  | _ => false

/-- isinstance(e, requests.exceptions.RequestException): true for every
exception the fetcher can raise, since all of them subclass RequestException. -/
def isRequestException : RequestExc → Bool
  | _ => true

/-- The retry condition installed on fetch_url_with_retries (http_utils.py
lines 9-13): retry_if_exception_type(Timeout) | retry_if_exception_type(
ConnectionError) | retry_if_exception_type(RequestException). -/
def tenacityRetryPred (e : RequestExc) : Bool :=
  isTimeout e || isConnectionError e || isRequestException e

/-- The status codes the body classifies as retryable and logs as such
(http_utils.py line 42): 429, 500, 502, 503.  Any other non-2xx status is
logged as non-retryable before being re-raised. -/
def retryableHTTP (code : Nat) : Bool :=
  code == 429 || code == 500 || code == 502 || code == 503

/-- One execution of the body of fetch_url_with_retries (http_utils.py lines
36-53): a 2xx response is returned; every exception — HTTPError of any status,
Timeout, ConnectionError or another RequestException — is re-raised after
logging, whether the log calls it retryable or not. -/
def fetch_attempt : AttemptOutcome → Except RequestExc Unit
  | .success => .ok ()
  | .http_status c => .error (.http_error c)
  | .timeout => .error .timeout
  | .conn_failure => .error .connection_error
  | .other_request_error => .error .request_exception

/-- The tenacity driver with stop_after_attempt and reraise=True: `fuel` is the
number of attempts still allowed, `made` the number already made, and
`resps k` the outcome of the (k+1)-th attempt.  After a failed attempt the last
error is re-raised if the attempt budget is exhausted; otherwise the retry
predicate decides between another attempt and raising immediately.  Returns the
total number of attempts made and the final outcome. -/
def tenacityLoop (resps : Nat → AttemptOutcome) : Nat → Nat → Nat × Except RequestExc Unit
  | 0, made => (made, .error .request_exception)
  | fuel + 1, made =>
    match fetch_attempt (resps made) with
    | .ok u => (made + 1, .ok u)
    | .error e =>
      if fuel = 0 then (made + 1, .error e)
      else if tenacityRetryPred e then tenacityLoop resps fuel (made + 1)
      else (made + 1, .error e)

/-- fetch_url_with_retries (http_utils.py lines 6-53) under
stop_after_attempt(retry_attempts): at most retry_attempts calls of the body. -/
def fetch_url_with_retries (retry_attempts : Nat) (resps : Nat → AttemptOutcome) :
    Nat × Except RequestExc Unit :=
  tenacityLoop resps retry_attempts 0

/-- Successive attempt outcomes 503, 503, 200 (the spec scenario). -/
def resps_503_503_200 : Nat → AttemptOutcome
  | 0 => .http_status 503
  | 1 => .http_status 503
  | _ => .success

/-- A server answering 404 on every attempt. -/
def resps_404 : Nat → AttemptOutcome :=
  fun _ => .http_status 404

/-- C3 (failing input evaluated): with retry_attempts = 3, the sequence
503, 503, 200 succeeds after exactly 2 retries (3 attempts) as claimed; but a
404 — which the body itself logs as non-retryable before re-raising — is
retried anyway, because the installed retry condition includes
RequestException, the superclass of HTTPError: the fetcher makes 3 attempts
(2 retries) before the 404 reaches the caller, not the claimed zero retries. -/
theorem fetch_404_retried_despite_nonretryable_log :
    fetch_url_with_retries 3 resps_503_503_200 = (3, .ok ()) ∧
    fetch_url_with_retries 3 resps_404 = (3, .error (.http_error 404)) ∧
    retryableHTTP 404 = false ∧
    retryableHTTP 503 = true ∧
    tenacityRetryPred (.http_error 404) = true := by
  refine ⟨rfl, rfl, rfl, rfl, rfl⟩

/-! ## core/robots.py: the politeness cache -/

/-- A parsed robots.txt ruleset (RobotExclusionRulesParser): its allow decision
for a (user_agent, url) pair. -/
structure RobotsRules where
  allows : String → String → Bool

/-- The module-level _robots_parsers cache: domain to parsed ruleset, or to the
None sentinel recorded when the fetch or parse failed. -/
abbrev RobotsCache := List (String × Option RobotsRules)

/-- Dictionary lookup in the cache: some v when the domain has an entry (v is
the cached ruleset or the None sentinel), none when it has never been seen. -/
def cacheLookup (d : String) (c : RobotsCache) : Option (Option RobotsRules) :=
  match c.find? (fun p => p.1 == d) with
  | some p => some p.2
  | Option.none => Option.none

/-- The robots-cache getter of core/robots.py lines 14-39.  `fetchParse` is the
environment: what fetching http://domain/robots.txt through the resilient
fetcher and parsing it yields for a domain (none on any failure); `dom` is the
domain extraction of get_domain_from_url.  Returns the updated cache, the value
the Python function returns, and how many robots.txt fetch attempts (calls of
the resilient fetcher) this call made for the domain of the URL: 0 on a cache
hit, 1 on a miss.  On failure the None sentinel is cached so the domain is
never fetched again. -/
def get_robots_rules (fetchParse : String → Option RobotsRules) (dom : String → String)
    (cache : RobotsCache) (url : String) :
    RobotsCache × Option RobotsRules × Nat :=
  let domain := dom url
  match cacheLookup domain cache with
  | some cached => (cache, cached, 0)
  | Option.none =>
    match fetchParse domain with
    | some rules => ((domain, some rules) :: cache, some rules, 1)
    | Option.none => ((domain, Option.none) :: cache, Option.none, 1)

/-- is_url_allowed (robots.py lines 41-61): consults the cached ruleset for the
URL's domain; with a ruleset, answers its decision; with the None sentinel (or
after a fresh failed fetch), assumes allowed.  Returns the updated cache, the
boolean answer, and the number of robots.txt fetches made by this call. -/
def is_url_allowed (fetchParse : String → Option RobotsRules) (dom : String → String)
    (cache : RobotsCache) (url user_agent : String) : RobotsCache × Bool × Nat :=
  match get_robots_rules fetchParse dom cache url with
  | (c, some rules, n) => (c, rules.allows user_agent url, n)
  | (c, Option.none, n) => (c, true, n)

/-- A sequence of is_url_allowed calls threaded through the cache: pairs each
(url, user_agent) input with its (answer, fetches) output. -/
def is_url_allowed_seq (fetchParse : String → Option RobotsRules) (dom : String → String)
    (cache : RobotsCache) : List (String × String) → RobotsCache × List (String × Bool × Nat)
  | [] => (cache, [])
  | (url, ua) :: rest =>
    let r := is_url_allowed fetchParse dom cache url ua
    let t := is_url_allowed_seq fetchParse dom r.1 rest
    (t.1, (url, r.2.1, r.2.2) :: t.2)

/-- A domain that has a cache entry keeps that exact entry across any
is_url_allowed call: the cache is only ever extended with unseen domains. -/
theorem cacheLookup_preserved (fetchParse : String → Option RobotsRules)
    (dom : String → String) (cache : RobotsCache) (url ua d : String)
    (v : Option RobotsRules) (h : cacheLookup d cache = some v) :
    cacheLookup d (is_url_allowed fetchParse dom cache url ua).1 = some v := by
  unfold is_url_allowed get_robots_rules
  cases hl : cacheLookup (dom url) cache with
  | some cached =>
    cases cached <;> simp [hl, h]
  | none =>
    have hne : (dom url == d) = false := by
      rcases hbe : dom url == d with _ | _
      · rfl
      · exfalso
        have : dom url = d := by simpa using hbe
        rw [this, h] at hl
        exact Option.noConfusion hl
    cases hf : fetchParse (dom url) with
    | some rules =>
      simp only [hl, hf]
      simpa [cacheLookup, List.find?, hne] using h
    | none =>
      simp only [hl, hf]
      simpa [cacheLookup, List.find?, hne] using h

/-- With the None sentinel cached for its domain, a call answers true and makes
no fetch, leaving the cache unchanged. -/
theorem is_url_allowed_sentinel (fetchParse : String → Option RobotsRules)
    (dom : String → String) (cache : RobotsCache) (url ua : String)
    (h : cacheLookup (dom url) cache = some Option.none) :
    is_url_allowed fetchParse dom cache url ua = (cache, true, 0) := by
  unfold is_url_allowed get_robots_rules
  simp [h]

/-- Once the None sentinel is cached for a domain, it stays cached through any
sequence of calls, and every call in the sequence whose URL is of that domain
answers true with zero fetch attempts. -/
theorem seq_sentinel_fail_open (fetchParse : String → Option RobotsRules)
    (dom : String → String) (d : String) (calls : List (String × String)) :
    ∀ cache : RobotsCache, cacheLookup d cache = some Option.none →
      cacheLookup d (is_url_allowed_seq fetchParse dom cache calls).1 =
        some Option.none ∧
      ∀ entry ∈ (is_url_allowed_seq fetchParse dom cache calls).2,
        dom entry.1 = d → entry.2.1 = true ∧ entry.2.2 = 0 := by
  induction calls with
  | nil =>
    intro cache h
    exact ⟨h, by intro entry hentry; simp [is_url_allowed_seq] at hentry⟩
  | cons head rest ih =>
    intro cache h
    obtain ⟨url, ua⟩ := head
    have hpres : cacheLookup d (is_url_allowed fetchParse dom cache url ua).1 =
        some Option.none :=
      cacheLookup_preserved fetchParse dom cache url ua d Option.none h
    have hrest := ih (is_url_allowed fetchParse dom cache url ua).1 hpres
    constructor
    · simpa [is_url_allowed_seq] using hrest.1
    · intro entry hentry hd
      simp only [is_url_allowed_seq, List.mem_cons] at hentry
      rcases hentry with hentry | hentry
      · have hdurl : dom url = d := by
          have h1 : entry.1 = url := by rw [hentry]
          rwa [h1] at hd
        have hcall := is_url_allowed_sentinel fetchParse dom cache url ua
          (by rw [hdurl]; exact h)
        rw [hcall] at hentry
        rw [hentry]
        exact ⟨rfl, rfl⟩
      · exact hrest.2 entry hentry hd

/-- C4: for a domain whose robots.txt fetch or parse fails, the failing call
itself answers true after exactly one invocation of the resilient fetcher, and
every subsequent call for any URL of that domain — whatever other calls are
interleaved — answers true and makes zero fetch attempts, because the None
sentinel is cached permanently.  Since a call only ever fetches the domain of
its own URL, the single fetch of the first call is the only one ever made for
that domain. -/
theorem robots_fail_open_cached (fetchParse : String → Option RobotsRules)
    (dom : String → String) (cache : RobotsCache) (url0 ua0 : String)
    (calls : List (String × String))
    (hmiss : cacheLookup (dom url0) cache = Option.none)
    (hfail : fetchParse (dom url0) = Option.none) :
    (is_url_allowed fetchParse dom cache url0 ua0).2.1 = true ∧
    (is_url_allowed fetchParse dom cache url0 ua0).2.2 = 1 ∧
    ∀ entry ∈ (is_url_allowed_seq fetchParse dom
        (is_url_allowed fetchParse dom cache url0 ua0).1 calls).2,
      dom entry.1 = dom url0 → entry.2.1 = true ∧ entry.2.2 = 0 := by
  have hfirst : is_url_allowed fetchParse dom cache url0 ua0 =
      ((dom url0, Option.none) :: cache, true, 1) := by
    unfold is_url_allowed get_robots_rules
    simp [hmiss, hfail]
  have hsent : cacheLookup (dom url0) ((dom url0, Option.none) :: cache) =
      some Option.none := by
    simp [cacheLookup, List.find?]
  refine ⟨by rw [hfirst], by rw [hfirst], ?_⟩
  rw [hfirst]
  exact (seq_sentinel_fail_open fetchParse dom (dom url0) calls
    ((dom url0, Option.none) :: cache) hsent).2

/-- Concrete instance of robots_fail_open_cached: a host whose robots.txt fetch
always fails, queried twice more for other URLs of the same host after the
failing call. -/
theorem robots_fail_open_cached_witness :
    let fetchParse : String → Option RobotsRules := fun _ => Option.none
    let dom : String → String := fun _ => "example.com"
    let first := is_url_allowed fetchParse dom [] "http://example.com/a" "*"
    let rest := is_url_allowed_seq fetchParse dom first.1
      [("http://example.com/b", "*"), ("http://example.com/c", "bot")]
    first.2.1 = true ∧ first.2.2 = 1 ∧
    rest.2 = [("http://example.com/b", true, 0), ("http://example.com/c", true, 0)] := by
  have h := robots_fail_open_cached (fun _ => Option.none) (fun _ => "example.com")
    [] "http://example.com/a" "*"
    [("http://example.com/b", "*"), ("http://example.com/c", "bot")]
    (by rfl) (by rfl)
  refine ⟨h.1, h.2.1, ?_⟩
  rfl

/-! ## core/storage.py: check_scraper_health -/

/-- check_scraper_health (storage.py lines 127-157).  Times are minutes on an
absolute UTC axis (Int); a row's value is the parsed last_run, or none for a
NULL/empty last_run column.  The function SELECTs the rows of scraper_health
and, for each row, alerts (send_notification with the synthetic source
"Health Check") when now minus last_run strictly exceeds the threshold, or when
the row's last_run is missing.  Scrapers with no row in the table are never
visited.  Returns the scraper names alerted, in table order. -/
def check_scraper_health (threshold_minutes now : Int)
    (rows : List (String × Option Int)) : List String :=
  rows.filterMap fun row =>
    match row.2 with
    | some last_run =>
        if now - last_run > threshold_minutes then some row.1 else Option.none
    | Option.none => some row.1

/-- Number of health alerts emitted for the given scraper name. -/
def alertCount (name : String) (alerts : List String) : Nat :=
  (alerts.filter fun s => s == name).length

/-- C5 counterexample: with threshold 30 at time 1000, a table holding only
scraper "jiji" (last success 31 minutes ago).  "ghost" is an enabled job with
no HealthRecord at all; the claim says it triggers exactly one alert, but
check_scraper_health only iterates rows present in scraper_health, so "ghost"
receives zero alerts. -/
theorem health_no_record_no_alert :
    check_scraper_health 30 1000 [("jiji", some 969)] = ["jiji"] ∧
    alertCount "ghost" (check_scraper_health 30 1000 [("jiji", some 969)]) = 0 := by
  refine ⟨?_, ?_⟩ <;> decide

/-- C5 amended: with threshold = 30 minutes, check_scraper_health emits exactly
one alert for a job whose recorded last success was 31 minutes ago, exactly one
alert for a job whose scraper_health row exists with a missing (NULL) last_run,
and no alert for a job whose last success was 10 minutes ago; a job with no
scraper_health row at all is never alerted. -/
theorem check_scraper_health_amended (now : Int) (a b c ghost : String)
    (hab : a ≠ b) (hbc : b ≠ c) (hac : a ≠ c)
    (hga : ghost ≠ a) (hgb : ghost ≠ b) :
    check_scraper_health 30 now
      [(a, some (now - 31)), (b, Option.none), (c, some (now - 10))] = [a, b] ∧
    alertCount a (check_scraper_health 30 now
      [(a, some (now - 31)), (b, Option.none), (c, some (now - 10))]) = 1 ∧
    alertCount b (check_scraper_health 30 now
      [(a, some (now - 31)), (b, Option.none), (c, some (now - 10))]) = 1 ∧
    alertCount c (check_scraper_health 30 now
      [(a, some (now - 31)), (b, Option.none), (c, some (now - 10))]) = 0 ∧
    alertCount ghost (check_scraper_health 30 now
      [(a, some (now - 31)), (b, Option.none), (c, some (now - 10))]) = 0 := by
  have h31 : now - (now - 31) > (30 : Int) := by omega
  have h10 : ¬(now - (now - 10) > (30 : Int)) := by omega
  have halerts : check_scraper_health 30 now
      [(a, some (now - 31)), (b, Option.none), (c, some (now - 10))] = [a, b] := by
    simp [check_scraper_health, h31, h10]
  have hba : (b == a) = false := beq_eq_false_iff_ne.mpr hab.symm
  have hbc2 : (b == c) = false := beq_eq_false_iff_ne.mpr hbc
  have hbg : (b == ghost) = false := beq_eq_false_iff_ne.mpr hgb.symm
  refine ⟨halerts, ?_, ?_, ?_, ?_⟩ <;>
    simp [halerts, alertCount, List.filter, hab, hab.symm, hbc, hbc.symm, hac, hac.symm,
      hga, hga.symm, hgb, hgb.symm, hba, hbc2, hbg]

/-- Concrete instance of check_scraper_health_amended at time 1000 with four
distinct job names. -/
theorem check_scraper_health_amended_witness :
    let alerts := check_scraper_health 30 1000
      [("a31", some (1000 - 31)), ("bnull", Option.none), ("c10", some (1000 - 10))]
    alerts = ["a31", "bnull"] ∧
    alertCount "a31" alerts = 1 ∧
    alertCount "bnull" alerts = 1 ∧
    alertCount "c10" alerts = 0 ∧
    alertCount "ghost" alerts = 0 :=
  check_scraper_health_amended 1000 "a31" "bnull" "c10" "ghost"
    (by decide) (by decide) (by decide) (by decide) (by decide)

end GigBot
